import Mathlib

/-!
Shallow embedding of `camel/toolkits/slack_toolkit.py` (class `SlackToolkit`).

Python values that flow through the toolkit (dict / list / str / bool / int /
None) are modelled by the inductive type `JValue`; a Python dict is an
association list in insertion order (the toolkit never builds a dict with a
repeated key).  A function that can raise models the raise as
`Except PyExn _`; the vendor SDK client is an oracle
`SlackClient : VendorCall → Except SlackApiError JValue`, and every operation
method also returns the list of vendor calls it issued, in order, so that
call-count and call-order properties can be stated.
-/

namespace SlackSpec

/-- Model of the Python values handled by the toolkit: `None`, `bool`, `int`,
`str`, `list`, `dict` (a dict is its key/value pairs in insertion order). -/
inductive JValue where
  | none : JValue
  | b : Bool → JValue
  | i : Int → JValue
  | s : String → JValue
  | arr : List JValue → JValue
  | obj : List (String × JValue) → JValue

/-- A Python dict whose keys are strings, as an association list. -/
abbrev Dict := List (String × JValue)

/-- Exceptions the toolkit itself can raise or propagate (the vendor's
`SlackApiError` is kept separate because the operation methods catch it). -/
inductive PyExn where
  | valueError (msg : String)
  | typeError (msg : String)
  | keyError (msg : String)
  | attributeError (msg : String)

/-- First value stored under key `k`, Python `d[k]` / successful `d.get(k)`. -/
def dGet (d : Dict) (k : String) : Option JValue :=
  match d with
  | [] => Option.none
  | (k2, v) :: rest => if k2 = k then some v else dGet rest k

/-- Python `k in d` for a dict. -/
def dHasKey (d : Dict) (k : String) : Bool :=
  (dGet d k).isSome

/-- Python `d.get(k)`: the stored value, or `None` when the key is absent. -/
def dGetD (d : Dict) (k : String) : JValue :=
  (dGet d k).getD JValue.none

/-- Keys of a dict in insertion order, Python `list(d.keys())`. -/
def dKeys (d : Dict) : List String :=
  d.map Prod.fst

/-- Keys of a value when it is a dict, `[]` otherwise. -/
def jKeys (v : JValue) : List String :=
  match v with
  | .obj d => dKeys d
  | _ => []

/-- Python truthiness of a value (`if v:`). -/
def jTruthy (v : JValue) : Bool :=
  match v with
  | .none => false
  | .b x => x
  | .i n => !(n == 0)
  | .s u => !(u == "")
  | .arr l => !l.isEmpty
  | .obj d => !d.isEmpty

/-- Python truthiness of an `Optional[str]` argument: `None` and `""` are
falsy, every other string is truthy. -/
def optStrTruthy (o : Option String) : Bool :=
  match o with
  | Option.none => false
  | some u => !(u == "")

/-- Python truthiness of an `Optional[list]` argument: `None` and `[]` are
falsy. -/
def optListTruthy (o : Option (List JValue)) : Bool :=
  match o with
  | Option.none => false
  | some l => !l.isEmpty

/-- Python equality of a toolkit value against a string literal
(`v == "lit"`): true exactly when `v` is that string. -/
def jeqS (v : JValue) (u : String) : Bool :=
  match v with
  | .s w => w == u
  | _ => false

/-- Is `needle` a contiguous substring of `hay` (Python `needle in hay` on
strings)?  The empty needle is contained in every string, as in Python. -/
def strContainsSub (needle hay : String) : Bool :=
  (hay.toList.tails).any (fun t => needle.toList.isPrefixOf t)

/-- Python name of a value's type, for error messages
(`type(x).__name__`). -/
def pyTypeName (v : JValue) : String :=
  match v with
  | .none => "NoneType"
  | .b _ => "bool"
  | .i _ => "int"
  | .s _ => "str"
  | .arr _ => "list"
  | .obj _ => "dict"

/-- Python `len(v)`: defined on strings, lists and dicts; on the other value
shapes `len` raises `TypeError`. -/
def pyLen (v : JValue) : Except PyExn Nat :=
  match v with
  | .s u => .ok u.length
  | .arr l => .ok l.length
  | .obj d => .ok d.length
  | _ => .error (.typeError ("object of type '" ++ pyTypeName v ++ "' has no len()"))

/-- Python subscription `v[k]` with a string key: the stored value of a dict,
`KeyError` when the key is absent, `TypeError` on a non-dict. -/
def pyIndex (v : JValue) (k : String) : Except PyExn JValue :=
  match v with
  | .obj d =>
    match dGet d k with
    | some x => .ok x
    | Option.none => .error (.keyError k)
  | _ => .error (.typeError ("'" ++ pyTypeName v ++ "' object is not subscriptable"))

/-- Python `v.get(k, dflt)`: dict lookup with a default; on a non-dict the
attribute access raises `AttributeError`. -/
def pyGet (v : JValue) (k : String) (dflt : JValue) : Except PyExn JValue :=
  match v with
  | .obj d => .ok ((dGet d k).getD dflt)
  | _ => .error (.attributeError ("'" ++ pyTypeName v ++ "' object has no attribute 'get'"))

mutual

/-- Python equality `==` between two toolkit values, structurally.  (Python
compares dicts without regard to key order; the toolkit only ever compares
option values, which are strings in every call the source makes, where the
two notions agree.) -/
def jbeq : JValue → JValue → Bool
  | .none, .none => true
  | .b x, .b y => x == y
  | .i x, .i y => x == y
  | .s x, .s y => x == y
  | .arr x, .arr y => jbeqList x y
  | .obj x, .obj y => jbeqObj x y
  | _, _ => false

/-- Elementwise `jbeq` on lists. -/
def jbeqList : List JValue → List JValue → Bool
  | [], [] => true
  | x :: xs, y :: ys => jbeq x y && jbeqList xs ys
  | _, _ => false

/-- Elementwise `jbeq` on dicts (insertion order respected). -/
def jbeqObj : List (String × JValue) → List (String × JValue) → Bool
  | [], [] => true
  | (k1, v1) :: xs, (k2, v2) :: ys => k1 == k2 && jbeq v1 v2 && jbeqObj xs ys
  | _, _ => false

end

mutual

/-- Python `repr` of a value, which `str()` of a dict, list, bool, int or
`None` delegates to (`str(response)` in the operation methods). -/
def reprJ : JValue → String
  | .none => "None"
  | .b true => "True"
  | .b false => "False"
  | .i n => toString n
  | .s u => "'" ++ u ++ "'"
  | .arr l => "[" ++ reprJList l ++ "]"
  | .obj d => "\x7b" ++ reprJObj d ++ "\x7d"

/-- Comma-separated `repr` of list elements. -/
def reprJList : List JValue → String
  | [] => ""
  | [x] => reprJ x
  | x :: y :: xs => reprJ x ++ ", " ++ reprJList (y :: xs)

/-- Comma-separated `repr` of dict entries. -/
def reprJObj : List (String × JValue) → String
  | [] => ""
  | [(k, v)] => "'" ++ k ++ "': " ++ reprJ v
  | (k, v) :: y :: xs => "'" ++ k ++ "': " ++ reprJ v ++ ", " ++ reprJObj (y :: xs)

end

/-- Python `str(v)` as used by the f-strings of the toolkit: a string is
itself, everything else is its `repr`. -/
def pyStrOf (v : JValue) : String :=
  match v with
  | .s u => u
  | v => reprJ v

/-- JSON escaping of one character (`json.dumps` with `ensure_ascii=False`
leaves non-ASCII characters alone; the control-character escapes are not
needed by any input the development evaluates). -/
def jsonEscChar (c : Char) : String :=
  if c = '"' then "\\\""
  else if c = '\\' then "\\\\"
  else String.singleton c

/-- JSON escaping of a string body. -/
def jsonEscape (u : String) : String :=
  String.join (u.toList.map jsonEscChar)

mutual

/-- Python `json.dumps(v, ensure_ascii=False)` with its default separators. -/
def jsonDumps : JValue → String
  | .none => "null"
  | .b true => "true"
  | .b false => "false"
  | .i n => toString n
  | .s u => "\"" ++ jsonEscape u ++ "\""
  | .arr l => "[" ++ jsonDumpsList l ++ "]"
  | .obj d => "\x7b" ++ jsonDumpsObj d ++ "\x7d"

/-- Comma-separated JSON of list elements. -/
def jsonDumpsList : List JValue → String
  | [] => ""
  | [x] => jsonDumps x
  | x :: y :: xs => jsonDumps x ++ ", " ++ jsonDumpsList (y :: xs)

/-- Comma-separated JSON of dict entries. -/
def jsonDumpsObj : List (String × JValue) → String
  | [] => ""
  | [(k, v)] => "\"" ++ jsonEscape k ++ "\": " ++ jsonDumps v
  | (k, v) :: y :: xs => "\"" ++ jsonEscape k ++ "\": " ++ jsonDumps v ++ ", " ++ jsonDumpsObj (y :: xs)

end

/-- One call to the vendor SDK client, with the arguments the toolkit passes.
`conversations_archive` takes a `JValue` because `create_slack_channel`
forwards `response["channel"]["id"]` unchecked. -/
inductive VendorCall where
  | conversations_create (name : String) (is_private : Bool)
  | conversations_archive (channel : JValue)
  | conversations_join (channel : String)
  | conversations_leave (channel : String)
  | conversations_list
  | conversations_history (channel : String)
  | chat_postMessage (channel text : String) (blocks : Option (List JValue))
  | chat_postEphemeral (channel text user : String) (blocks : Option (List JValue))
  | files_upload_v2 (channel file initial_comment : String)
  | chat_delete (channel ts : String)

/-- The vendor's error type; `e.response` is what the except-handlers index
with `e.response['error']`. -/
structure SlackApiError where
  response : JValue

/-- The vendor SDK client, as an oracle from a call to its response or its
raised `SlackApiError`. -/
abbrev SlackClient := VendorCall → Except SlackApiError JValue

/-- The except-handler body `f"{pre}{e.response['error']}"`: indexing a
response that lacks the `error` key raises a `KeyError` that the handler
itself does not catch. -/
def slackErrorString (pre : String) (e : SlackApiError) : Except PyExn String :=
  match pyIndex e.response "error" with
  | .error ex => .error ex
  | .ok v => .ok (pre ++ pyStrOf v)

/-- What an operation method produces: its Python return value (or the
exception it propagates) together with the vendor calls it issued, in
order. -/
abbrev OpResult := Except PyExn String × List VendorCall

/-- Embedding of `SlackToolkit._login_slack`'s credential resolution: the
explicit argument when truthy, else `SLACK_BOT_TOKEN` or `SLACK_USER_TOKEN`
from the environment (Python `or`: first truthy value), else `KeyError`.
The source constructs the `WebClient` only after this resolution succeeds,
so an `.error` result models that no client is constructed; the `slack_sdk`
module availability and the `ssl` argument are environment concerns that
stay outside the model. -/
def login_slack_token (slack_token : Option String) (env : String → Option String) :
    Except PyExn String :=
  if optStrTruthy slack_token then .ok (slack_token.getD "")
  else
    let t := if optStrTruthy (env "SLACK_BOT_TOKEN") then env "SLACK_BOT_TOKEN"
             else env "SLACK_USER_TOKEN"
    if optStrTruthy t then .ok (t.getD "")
    else .error (.keyError
      "SLACK_BOT_TOKEN or SLACK_USER_TOKEN environment variable not set.")

/-- Embedding of `SlackToolkit.create_slack_channel`: calls
`conversations_create`, extracts `response["channel"]["id"]`, calls
`conversations_archive` on it and returns `str` of the archive response;
a `SlackApiError` from either call is turned into an error string. -/
def create_slack_channel (client : SlackClient) (name : String) (is_private : Bool) :
    OpResult :=
  let call1 := VendorCall.conversations_create name is_private
  match client call1 with
  | .error e => (slackErrorString "Error creating conversation: " e, [call1])
  | .ok response =>
    match pyIndex response "channel" with
    | .error ex => (.error ex, [call1])
    | .ok ch =>
      match pyIndex ch "id" with
      | .error ex => (.error ex, [call1])
      | .ok channel_id =>
        let call2 := VendorCall.conversations_archive channel_id
        match client call2 with
        | .error e => (slackErrorString "Error creating conversation: " e, [call1, call2])
        | .ok response2 => (.ok (pyStrOf response2), [call1, call2])

/-- Embedding of `SlackToolkit.join_slack_channel`. -/
def join_slack_channel (client : SlackClient) (channel_id : String) : OpResult :=
  let call := VendorCall.conversations_join channel_id
  match client call with
  | .error e => (slackErrorString "Error creating conversation: " e, [call])
  | .ok response => (.ok (pyStrOf response), [call])

/-- Embedding of `SlackToolkit.leave_slack_channel`. -/
def leave_slack_channel (client : SlackClient) (channel_id : String) : OpResult :=
  let call := VendorCall.conversations_leave channel_id
  match client call with
  | .error e => (slackErrorString "Error creating conversation: " e, [call])
  | .ok response => (.ok (pyStrOf response), [call])

/-- The key tuple `("id", "name", "created", "num_members")` of
`get_slack_channel_information`. -/
def channelKeys : List String := ["id", "name", "created", "num_members"]

/-- The key tuple `("user", "text", "ts")` of `get_slack_channel_message`. -/
def messageKeys : List String := ["user", "text", "ts"]

/-- Python `k in v` as the retrieval comprehensions apply it to an arbitrary
vendor-returned entry: key membership on a dict, substring test on a string,
element membership (`==` against each element) on a list, and a `TypeError`
(not iterable) on `None` / `bool` / `int`. -/
def pyContains (k : String) (v : JValue) : Except PyExn Bool :=
  match v with
  | .obj d => .ok (dHasKey d k)
  | .s u => .ok (strContainsSub k u)
  | .arr l => .ok (l.any (fun x => jbeq (JValue.s k) x))
  | _ => .error (.typeError ("argument of type '" ++ pyTypeName v ++ "' is not iterable"))

/-- The guard `all(key in entry for key in keys)`: Python's `all` consumes
the generator lazily, so it stops at the first `False` and a raise from a
later membership test never happens. -/
def allContains (entry : JValue) (keys : List String) : Except PyExn Bool :=
  match keys with
  | [] => .ok true
  | k :: ks =>
    match pyContains k entry with
    | .error e => .error e
    | .ok false => .ok false
    | .ok true => allContains entry ks

/-- The dict comprehension `{key: entry[key] for key in keys}`: one
subscription per key, in key order, the first raise aborting (on a dict
that passed the guard every lookup succeeds; a string can pass the guard
via substrings and then raise here). -/
def projectKeysE (entry : JValue) (keys : List String) : Except PyExn Dict :=
  match keys with
  | [] => .ok []
  | k :: ks =>
    match pyIndex entry k with
    | .error e => .error e
    | .ok v =>
      match projectKeysE entry ks with
      | .error e => .error e
      | .ok rest => .ok ((k, v) :: rest)

/-- The filtering list comprehension shared by the two retrieval methods:
for each entry evaluate the all-keys guard, on `True` evaluate the
projection; any raise (e.g. a non-iterable entry) propagates, as it does in
Python, where the surrounding `except SlackApiError` does not catch it. -/
def filterEntries (entries : List JValue) (keys : List String) :
    Except PyExn (List JValue) :=
  match entries with
  | [] => .ok []
  | c :: cs =>
    match allContains c keys with
    | .error e => .error e
    | .ok false => filterEntries cs keys
    | .ok true =>
      match projectKeysE c keys with
      | .error e => .error e
      | .ok d =>
        match filterEntries cs keys with
        | .error e => .error e
        | .ok rest => .ok (JValue.obj d :: rest)

/-- Embedding of `SlackToolkit.get_slack_channel_information`: list the
conversations, keep those with all of `channelKeys`, project to those keys
and `json.dumps` the result.  Iterating a non-list `response["channels"]`
would raise in Python; the model reports it as a `TypeError`. -/
def get_slack_channel_information (client : SlackClient) : OpResult :=
  let call := VendorCall.conversations_list
  match client call with
  | .error e => (slackErrorString "Error creating conversation: " e, [call])
  | .ok response =>
    match pyIndex response "channels" with
    | .error ex => (.error ex, [call])
    | .ok chs =>
      match chs with
      | .arr conversations =>
        match filterEntries conversations channelKeys with
        | .error ex => (.error ex, [call])
        | .ok filtered => (.ok (jsonDumps (.arr filtered)), [call])
      | v => (.error (.typeError ("'" ++ pyTypeName v ++ "' object is not iterable")), [call])

/-- Embedding of `SlackToolkit.get_slack_channel_message`. -/
def get_slack_channel_message (client : SlackClient) (channel_id : String) : OpResult :=
  let call := VendorCall.conversations_history channel_id
  match client call with
  | .error e => (slackErrorString "Error retrieving messages: " e, [call])
  | .ok result =>
    match pyIndex result "messages" with
    | .error ex => (.error ex, [call])
    | .ok ms =>
      match ms with
      | .arr messages =>
        match filterEntries messages messageKeys with
        | .error ex => (.error ex, [call])
        | .ok filtered => (.ok (jsonDumps (.arr filtered)), [call])
      | v => (.error (.typeError ("'" ++ pyTypeName v ++ "' object is not iterable")), [call])

/-- Embedding of `SlackToolkit.send_slack_message`: a truthy `file_path`
uploads the file, else a truthy `user` posts an ephemeral message, else a
public `chat_postMessage`; the two chat branches share one success string. -/
def send_slack_message (client : SlackClient) (message channel_id : String)
    (file_path user : Option String) (blocks : Option (List JValue)) : OpResult :=
  if optStrTruthy file_path then
    let call := VendorCall.files_upload_v2 channel_id (file_path.getD "") message
    match client call with
    | .error e => (slackErrorString "Error creating conversation: " e, [call])
    | .ok response =>
      (.ok ("File sent successfully, got response: " ++ pyStrOf response), [call])
  else
    let call :=
      if optStrTruthy user then
        VendorCall.chat_postEphemeral channel_id message (user.getD "") blocks
      else
        VendorCall.chat_postMessage channel_id message blocks
    match client call with
    | .error e => (slackErrorString "Error creating conversation: " e, [call])
    | .ok response =>
      (.ok ("Message: " ++ message ++ " sent successfully, got response: " ++ pyStrOf response),
       [call])

/-- Sequencing of a validation before the rest of a builder: an exception
aborts, success continues (Python statement order). -/
def pseq {α : Type} (a : Except PyExn Unit) (rest : Except PyExn α) : Except PyExn α :=
  match a with
  | .error e => .error e
  | .ok _ => rest

/-- Embedding of `SlackToolkit._validate_text_object`: a text object must be
a dict with `type` and `text` keys whose `type` is `plain_text` or
`mrkdwn`. -/
def _validate_text_object (text_obj : JValue) (name : String) : Except PyExn Unit :=
  match text_obj with
  | .obj d =>
    if !(dHasKey d "type" && dHasKey d "text") then
      .error (.valueError ("The " ++ name ++
        " parameter must be a valid text object with 'type' and 'text' keys."))
    else if !(jeqS (dGetD d "type") "plain_text" || jeqS (dGetD d "type") "mrkdwn") then
      .error (.valueError ("The " ++ name ++
        " object type must be either 'plain_text' or 'mrkdwn'."))
    else .ok ()
  | _ =>
    .error (.valueError ("The " ++ name ++
      " parameter must be a valid text object with 'type' and 'text' keys."))

/-- One pass of `_validate_confirm_object`'s per-field loop: validate the
text object under `field_name`, require type `expected` and cap the length
of its `text` content (`.get("text", "")`). -/
def _validate_confirm_field (d : Dict) (name field_name expected : String)
    (max_len : Nat) : Except PyExn Unit :=
  match pyIndex (.obj d) field_name with
  | .error ex => .error ex
  | .ok text_obj =>
    pseq (_validate_text_object text_obj (name ++ " " ++ field_name))
      (match pyGet text_obj "type" JValue.none with
       | .error ex => .error ex
       | .ok t =>
         if !(jeqS t expected) then
           .error (.valueError ("The " ++ name ++ " " ++ field_name ++
             " text object must be of type '" ++ expected ++ "', not '" ++
             pyStrOf t ++ "'."))
         else
           match pyGet text_obj "text" (JValue.s "") with
           | .error ex => .error ex
           | .ok text_content =>
             match pyLen text_content with
             | .error ex => .error ex
             | .ok n =>
               if n > max_len then
                 .error (.valueError ("The " ++ name ++ " " ++ field_name ++
                   " cannot exceed " ++ toString max_len ++ " characters."))
               else .ok ())

/-- Embedding of `SlackToolkit._validate_confirm_object`: required keys
`title`, `text`, `confirm`, `deny`, all plain-text with length caps
100/300/30/30, and an optional `style` in primary/danger. -/
def _validate_confirm_object (confirm_obj : JValue) (name : String) : Except PyExn Unit :=
  match confirm_obj with
  | .obj d =>
    let missing := (["title", "text", "confirm", "deny"].filter (fun k => !(dHasKey d k)))
    if !missing.isEmpty then
      .error (.valueError ("The " ++ name ++
        " object must contain the following keys: title, text, confirm, deny. Missing: " ++
        String.intercalate ", " missing))
    else
      pseq (_validate_confirm_field d name "title" "plain_text" 100)
        (pseq (_validate_confirm_field d name "text" "plain_text" 300)
          (pseq (_validate_confirm_field d name "confirm" "plain_text" 30)
            (pseq (_validate_confirm_field d name "deny" "plain_text" 30)
              (if dHasKey d "style" then
                 let style := dGetD d "style"
                 if !(jeqS style "primary" || jeqS style "danger") then
                   .error (.valueError ("The " ++ name ++
                     " style must be 'primary' or 'danger', not '" ++ pyStrOf style ++ "'."))
                 else .ok ()
               else .ok ()))))
  | _ => .error (.valueError ("The " ++ name ++ " parameter must be a dictionary."))

/-- Embedding of `SlackToolkit._validate_slack_file_object`: a dict with at
least one of `id` / `url`, both non-blank strings when present, `url` at
most 3000 characters, and no other key.  (Python iterates the unexpected
keys as a set, so their order in the message is unspecified; the model uses
insertion order.) -/
def _validate_slack_file_object (file_obj : JValue) (name : String) : Except PyExn Unit :=
  match file_obj with
  | .obj d =>
    if !(dHasKey d "id" || dHasKey d "url") then
      .error (.valueError ("The " ++ name ++
        " object must contain at least one of 'id' or 'url' keys."))
    else
      pseq
        (if dHasKey d "id" then
           match dGetD d "id" with
           | .s u =>
             if u.trim == "" then
               .error (.valueError ("The " ++ name ++ " 'id' cannot be empty or whitespace."))
             else .ok ()
           | v =>
             .error (.valueError ("The " ++ name ++ " 'id' must be a string, not " ++
               pyTypeName v ++ "."))
         else .ok ())
        (pseq
          (if dHasKey d "url" then
             match dGetD d "url" with
             | .s u =>
               if u.trim == "" then
                 .error (.valueError ("The " ++ name ++ " 'url' cannot be empty or whitespace."))
               else if u.length > 3000 then
                 .error (.valueError ("The " ++ name ++ " 'url' cannot exceed 3000 characters."))
               else .ok ()
             | v =>
               .error (.valueError ("The " ++ name ++ " 'url' must be a string, not " ++
                 pyTypeName v ++ "."))
           else .ok ())
          (let unexpected := (dKeys d).filter (fun k => !(k == "id" || k == "url"))
           if !unexpected.isEmpty then
             .error (.valueError ("The " ++ name ++ " object contains unexpected keys: " ++
               String.intercalate ", " unexpected ++ ". Valid keys are: id, url."))
           else .ok ()))
  | _ => .error (.valueError ("The " ++ name ++ " parameter must be a dictionary."))

/-- One step of the optional-string length loop shared by `make_button`
(`string_validations`): `None` passes, a string longer than `max_length`
raises. -/
def checkOptLen (p : Option String) (max_length : Nat) (field_name : String) :
    Except PyExn Unit :=
  match p with
  | Option.none => .ok ()
  | some u =>
    if u.length > max_length then
      .error (.valueError (field_name ++ " cannot exceed " ++ toString max_length ++
        " characters."))
    else .ok ()

/-- The style check `style is not None and style not in ["primary", "danger"]`. -/
def checkStyle (style : Option String) : Except PyExn Unit :=
  match style with
  | Option.none => .ok ()
  | some u =>
    if !(u == "primary" || u == "danger") then
      .error (.valueError "The style must be 'primary' or 'danger'.")
    else .ok ()

/-- The splice `**({key: value} if value is not None else {})` for an
optional string argument. -/
def optEntryStr (k : String) (o : Option String) : Dict :=
  match o with
  | Option.none => []
  | some u => [(k, JValue.s u)]

/-- Lazy `any(...)` over a generator whose body can raise. -/
def anyExcept (l : List JValue) (p : JValue → Except PyExn Bool) : Except PyExn Bool :=
  match l with
  | [] => .ok false
  | x :: xs =>
    match p x with
    | .error e => .error e
    | .ok true => .ok true
    | .ok false => anyExcept xs p

/-- Embedding of `SlackToolkit.make_text_object`: `text_type` must be
`plain_text` or `mrkdwn`, the text length must lie in `[1, 3000]`, and the
`emoji` / `verbatim` flags are spliced into the result only when the type
matches (`plain_text` / `mrkdwn` respectively) — otherwise they are dropped
without an error. -/
def make_text_object (text_type text : String) (emoji verbatim : Option Bool) :
    Except PyExn Dict :=
  if !(text_type == "plain_text" || text_type == "mrkdwn") then
    .error (.valueError "text_type must be either 'plain_text' or 'mrkdwn'.")
  else if !(1 ≤ text.length ∧ text.length ≤ 3000 : Bool) then
    .error (.valueError "The text length must be between 1 and 3000 characters.")
  else
    .ok ([("type", JValue.s text_type), ("text", JValue.s text)]
      ++ (match emoji with
          | some e => if text_type == "plain_text" then [("emoji", JValue.b e)] else []
          | Option.none => [])
      ++ (match verbatim with
          | some v => if text_type == "mrkdwn" then [("verbatim", JValue.b v)] else []
          | Option.none => []))

/-- Embedding of `SlackToolkit.make_button`: the label must be a
`plain_text` object of at most 75 characters; `action_id` / `value` / `url` /
`accessibility_label` are capped at 255/2000/3000/75; `style` must be
primary or danger; a provided `confirm` is validated; the optional fields
are spliced in on `is not None`. -/
def make_button (text : JValue) (action_id value style url : Option String)
    (confirm : Option JValue) (accessibility_label : Option String) :
    Except PyExn Dict :=
  match pyGet text "type" JValue.none with
  | .error ex => .error ex
  | .ok tType =>
    if !(jeqS tType "plain_text") then
      .error (.valueError "The text object must be of type 'plain_text', not 'mrkdwn'.")
    else
      match pyGet text "text" (JValue.s "") with
      | .error ex => .error ex
      | .ok text_content =>
        match pyLen text_content with
        | .error ex => .error ex
        | .ok n =>
          if n > 75 then
            .error (.valueError "Button text cannot exceed 75 characters.")
          else
            pseq (checkOptLen action_id 255 "action_id")
              (pseq (checkOptLen value 2000 "Button value")
                (pseq (checkOptLen url 3000 "Button url")
                  (pseq (checkOptLen accessibility_label 75 "Button accessibility_label")
                    (pseq (checkStyle style)
                      (pseq (match confirm with
                             | some c => _validate_confirm_object c "confirm"
                             | Option.none => .ok ())
                        (.ok ([("type", JValue.s "button"), ("text", text)]
                          ++ optEntryStr "action_id" action_id
                          ++ optEntryStr "value" value
                          ++ optEntryStr "style" style
                          ++ optEntryStr "url" url
                          ++ (match confirm with
                              | some c => [("confirm", c)]
                              | Option.none => [])
                          ++ optEntryStr "accessibility_label" accessibility_label)))))))

/-- The `initial_option` block of `make_select_menu`: it runs only on a
truthy value, requires a dict with `text` and `value` keys, validates a
non-`None` `text`, and with truthy `options` requires some option whose
`value` equals the initial option's. -/
def checkInitialOption (initial_option : Option JValue) (options : Option (List JValue)) :
    Except PyExn Unit :=
  match initial_option with
  | Option.none => .ok ()
  | some io =>
    if !(jTruthy io) then .ok ()
    else
      match io with
      | .obj d =>
        if !(dHasKey d "text" && dHasKey d "value") then
          .error (.valueError
            "The initial_option must be a dictionary with 'text' and 'value' keys.")
        else
          pseq (match dGetD d "text" with
                | JValue.none => .ok ()
                | t => _validate_text_object t "initial_option text")
            (if optListTruthy options then
               match anyExcept (options.getD [])
                   (fun opt =>
                     match pyGet opt "value" JValue.none with
                     | .error ex => .error ex
                     | .ok ov => .ok (jbeq ov (dGetD d "value"))) with
               | .error ex => .error ex
               | .ok true => .ok ()
               | .ok false =>
                 .error (.valueError
                   "The initial_option must exist in the provided options list.")
             else .ok ())
      | _ =>
        .error (.valueError
          "The initial_option must be a dictionary with 'text' and 'value' keys.")

/-- The `placeholder` block shared syntactically by `make_select_menu`
(guarded by truthiness there): validate the text object, require
`plain_text`, cap the content at `cap` characters. -/
def checkPlaceholder (ph : JValue) (cap : Nat) : Except PyExn Unit :=
  pseq (_validate_text_object ph "placeholder")
    (match pyGet ph "type" JValue.none with
     | .error ex => .error ex
     | .ok t =>
       if !(jeqS t "plain_text") then
         .error (.valueError "The placeholder must be a plain_text object, not 'mrkdwn'.")
       else
         match pyGet ph "text" (JValue.s "") with
         | .error ex => .error ex
         | .ok tc =>
           match pyLen tc with
           | .error ex => .error ex
           | .ok n =>
             if n > cap then
               .error (.valueError ("The placeholder text cannot exceed " ++ toString cap ++
                 " characters."))
             else .ok ())

/-- Embedding of `SlackToolkit.make_select_menu`: truthy `options` together
with truthy `option_groups` is rejected; then the combined 100-item /
255-character guard; then the `initial_option`, `placeholder` (truthy
guard) and `confirm` (`is not None` guard) validations; the result splices
`options` / `option_groups` on `is not None` but `placeholder`,
`initial_option` and `confirm` on truthiness, and always carries
`focus_on_load`. -/
def make_select_menu (action_id : Option String)
    (options option_groups : Option (List JValue))
    (initial_option confirm : Option JValue) (focus_on_load : Bool)
    (placeholder : Option JValue) : Except PyExn Dict :=
  if optListTruthy options && optListTruthy option_groups then
    .error (.valueError "You must provide either 'options' or 'option_groups', not both.")
  else if (optListTruthy options && decide ((options.getD []).length > 100))
      || (optListTruthy option_groups && decide ((option_groups.getD []).length > 100))
      || (optStrTruthy action_id && decide ((action_id.getD "").length > 255)) then
    .error (.valueError
      "The options or option_groups list cannot exceed 100 items or action_id cannot exceed 255 characters.")
  else
    pseq (checkInitialOption initial_option options)
      (pseq (match placeholder with
             | some ph => if jTruthy ph then checkPlaceholder ph 150 else .ok ()
             | Option.none => .ok ())
        (pseq (match confirm with
               | some c => _validate_confirm_object c "confirm"
               | Option.none => .ok ())
          (.ok ([("type", JValue.s "static_select")]
            ++ optEntryStr "action_id" action_id
            ++ (match options with
                | some l => [("options", JValue.arr l)]
                | Option.none => [])
            ++ (match option_groups with
                | some l => [("option_groups", JValue.arr l)]
                | Option.none => [])
            ++ (match placeholder with
                | some ph => if jTruthy ph then [("placeholder", ph)] else []
                | Option.none => [])
            ++ (match initial_option with
                | some io => if jTruthy io then [("initial_option", io)] else []
                | Option.none => [])
            ++ (match confirm with
                | some c => if jTruthy c then [("confirm", c)] else []
                | Option.none => [])
            ++ [("focus_on_load", JValue.b focus_on_load)]))))

/-- Embedding of `SlackToolkit.make_slack_file_object`: no validation at
all — a total function that splices `id` / `url` for truthy arguments and
returns the empty dict when both are falsy. -/
def make_slack_file_object (file_id url : Option String) : Dict :=
  (if optStrTruthy file_id then [("id", JValue.s (file_id.getD ""))] else [])
  ++ (if optStrTruthy url then [("url", JValue.s (url.getD ""))] else [])

/-- Embedding of `SlackToolkit.delete_slack_message`. -/
def delete_slack_message (client : SlackClient) (time_stamp channel_id : String) : OpResult :=
  let call := VendorCall.chat_delete channel_id time_stamp
  match client call with
  | .error e => (slackErrorString "Error creating conversation: " e, [call])
  | .ok response => (.ok (pyStrOf response), [call])

/-- A concrete vendor client mirroring the repository's own mocked test
client: `conversations_create` answers with a channel id,
`conversations_archive` with a marker payload, the retrieval calls with one
well-formed entry, everything else with an empty dict. -/
def exampleClient : SlackClient := fun c =>
  match c with
  | .conversations_create _ _ =>
    .ok (.obj [("channel", .obj [("id", .s "fake_channel_id")])])
  | .conversations_archive _ =>
    .ok (.obj [("fake_response_key", .s "fake_response_value")])
  | .conversations_list =>
    .ok (.obj [("channels", .arr [(.obj [("id", .s "123"), ("name", .s "test_channel"),
      ("created", .i 123), ("num_members", .i 5)])])])
  | .conversations_history _ =>
    .ok (.obj [("messages", .arr [(.obj [("user", .s "user_id"),
      ("text", .s "test_message"), ("ts", .s "123")])])])
  | _ => .ok (.obj [])

/-- A concrete vendor client whose every call raises a `SlackApiError` with
`response = {'error': 'channel_not_found'}`. -/
def erroringClient : SlackClient := fun _ =>
  .error ⟨.obj [("error", .s "channel_not_found")]⟩

/-- An environment with both credential variables set. -/
def envBoth : String → Option String := fun k =>
  if k = "SLACK_BOT_TOKEN" then some "xoxb-1"
  else if k = "SLACK_USER_TOKEN" then some "xoxp-2"
  else Option.none

/-- An environment with only the user credential variable set. -/
def envUserOnly : String → Option String := fun k =>
  if k = "SLACK_USER_TOKEN" then some "xoxp-2" else Option.none

/-- An environment with no credential variable set. -/
def envEmpty : String → Option String := fun _ => Option.none

/-- Keys of a successful dict comprehension: when `projectKeysE` returns a
dict, that dict holds exactly the requested keys, in order. -/
theorem dKeys_projectKeysE (c : JValue) (keys : List String) (d : Dict)
    (h : projectKeysE c keys = .ok d) : dKeys d = keys := by
  induction keys generalizing d with
  | nil =>
    simp only [projectKeysE, Except.ok.injEq] at h
    subst h
    rfl
  | cons k ks ih =>
    unfold projectKeysE at h
    cases hp : pyIndex c k with
    | error e => simp [hp] at h
    | ok v =>
      cases hr : projectKeysE c ks with
      | error e => simp [hp, hr] at h
      | ok rest =>
        simp only [hp, hr, Except.ok.injEq] at h
        subst h
        simpa [dKeys] using ih rest hr

/-- Every element of a successful filtering comprehension is a dict built by
a successful projection of some input entry. -/
theorem mem_filterEntries_ok (entries : List JValue) (keys : List String)
    (out : List JValue) (h : filterEntries entries keys = .ok out) :
    ∀ v ∈ out, ∃ c d, c ∈ entries ∧ projectKeysE c keys = .ok d ∧ v = .obj d := by
  induction entries generalizing out with
  | nil =>
    obtain rfl : ([] : List JValue) = out := by simpa [filterEntries] using h
    simp
  | cons c cs ih =>
    unfold filterEntries at h
    cases hac : allContains c keys with
    | error e => simp [hac] at h
    | ok b =>
      cases b with
      | false =>
        simp only [hac] at h
        intro v hv
        obtain ⟨c2, d, hc2, hd, hv2⟩ := ih out h v hv
        exact ⟨c2, d, List.mem_cons_of_mem c hc2, hd, hv2⟩
      | true =>
        simp only [hac] at h
        cases hd : projectKeysE c keys with
        | error e => simp [hd] at h
        | ok d =>
          simp only [hd] at h
          cases hrest : filterEntries cs keys with
          | error e => simp [hrest] at h
          | ok rest =>
            simp only [hrest, Except.ok.injEq] at h
            subst h
            intro v hv
            rcases List.mem_cons.mp hv with rfl | hv2
            · exact ⟨c, d, List.mem_cons_self c cs, hd, rfl⟩
            · obtain ⟨c2, d2, hc2, hd2, hv3⟩ := ih rest hrest v hv2
              exact ⟨c2, d2, List.mem_cons_of_mem c hc2, hd2, hv3⟩

/-- Every element of a successful filtering comprehension carries exactly
the fixed key list. -/
theorem jKeys_of_mem_filterEntries (entries : List JValue) (keys : List String)
    (out : List JValue) (h : filterEntries entries keys = .ok out)
    (v : JValue) (hv : v ∈ out) : jKeys v = keys := by
  obtain ⟨c, d, _, hd, rfl⟩ := mem_filterEntries_ok entries keys out h v hv
  simpa [jKeys] using dKeys_projectKeysE c keys d hd

/-- On a dict entry the all-keys guard is the pure key test. -/
theorem allContains_obj (d : Dict) (keys : List String) :
    allContains (.obj d) keys = .ok (keys.all (fun k => dHasKey d k)) := by
  induction keys with
  | nil => rfl
  | cons k ks ih =>
    cases h : dHasKey d k <;> simp [allContains, pyContains, h, ih]

/-- On a dict entry holding every requested key the comprehension succeeds
with the projection to those keys. -/
theorem projectKeysE_obj (d : Dict) (keys : List String)
    (h : ∀ k ∈ keys, dHasKey d k = true) :
    projectKeysE (.obj d) keys
      = .ok (keys.filterMap (fun k => (dGet d k).map (fun v => (k, v)))) := by
  induction keys with
  | nil => rfl
  | cons k ks ih =>
    have hk : dHasKey d k = true := h k (List.mem_cons_self k ks)
    obtain ⟨v, hv⟩ := Option.isSome_iff_exists.mp hk
    have ihs := ih (fun k2 hk2 => h k2 (List.mem_cons_of_mem k hk2))
    simp [projectKeysE, pyIndex, hv, ihs, List.filterMap_cons]

/-- On a single dict entry the filtering comprehension keeps a qualifying
entry, projected, and silently omits an entry missing a required key. -/
theorem filterEntries_singleton_obj (d : Dict) (keys : List String) :
    filterEntries [JValue.obj d] keys
      = .ok (if (keys.all (fun k => dHasKey d k)) = true
             then [JValue.obj (keys.filterMap (fun k => (dGet d k).map (fun v => (k, v))))]
             else []) := by
  cases hall : keys.all (fun k => dHasKey d k) with
  | false => simp [filterEntries, allContains_obj, hall]
  | true =>
    have hpresent : ∀ k ∈ keys, dHasKey d k = true := by
      intro k hk
      exact List.all_eq_true.mp hall k hk
    simp [filterEntries, allContains_obj, hall, projectKeysE_obj d keys hpresent]

/-- A successful filtering comprehension distributes over concatenation, so
the retained entries keep their relative order. -/
theorem filterEntries_append_ok (l1 l2 : List JValue) (keys : List String)
    (o1 o2 : List JValue) (h1 : filterEntries l1 keys = .ok o1)
    (h2 : filterEntries l2 keys = .ok o2) :
    filterEntries (l1 ++ l2) keys = .ok (o1 ++ o2) := by
  induction l1 generalizing o1 with
  | nil =>
    obtain rfl : ([] : List JValue) = o1 := by simpa [filterEntries] using h1
    simpa using h2
  | cons c cs ih =>
    rw [List.cons_append]
    unfold filterEntries at h1 ⊢
    cases hac : allContains c keys with
    | error e => simp [hac] at h1
    | ok b =>
      cases b with
      | false =>
        simp only [hac] at h1 ⊢
        exact ih o1 h1
      | true =>
        simp only [hac] at h1 ⊢
        cases hd : projectKeysE c keys with
        | error e => simp [hd] at h1
        | ok d =>
          simp only [hd] at h1 ⊢
          cases hrest : filterEntries cs keys with
          | error e => simp [hrest] at h1
          | ok rest =>
            simp only [hrest, Except.ok.injEq] at h1
            subst h1
            rw [ih rest hrest]
            simp



/-- Claim C9 (confirmed): `make_slack_file_object` never raises — it is a
total function with no validation.  With both arguments `None` (or empty,
hence falsy) it returns the empty dict, and in general its keys are exactly
`id` / `url` for the truthy arguments; yet the toolkit's own
`_validate_slack_file_object`, used by `make_image`, rejects that empty
dict for lacking both keys. -/
theorem claim_C9_file_object_no_validation :
    make_slack_file_object Option.none Option.none = ([] : Dict) ∧
    make_slack_file_object (some "") (some "") = ([] : Dict) ∧
    (∀ file_id url, dKeys (make_slack_file_object file_id url) =
      (if optStrTruthy file_id then ["id"] else [])
        ++ (if optStrTruthy url then ["url"] else [])) ∧
    _validate_slack_file_object (.obj []) "slack_file"
      = .error (.valueError
          "The slack_file object must contain at least one of 'id' or 'url' keys.") := by
  refine ⟨rfl, rfl, ?_, rfl⟩
  intro fid url
  cases h1 : optStrTruthy fid <;> cases h2 : optStrTruthy url <;>
    simp [make_slack_file_object, dKeys, h1, h2]

/-- Claim C8 (confirmed): `_login_slack` resolves the credential in order —
the explicit `slack_token` argument when truthy, else the `SLACK_BOT_TOKEN`
environment variable, else `SLACK_USER_TOKEN`; when none of the three yields
a (non-empty) token it raises `KeyError`, before any client would be
constructed. -/
theorem claim_C8_token_resolution (slack_token : Option String)
    (env : String → Option String) :
    (optStrTruthy slack_token = true →
      login_slack_token slack_token env = .ok (slack_token.getD "")) ∧
    (optStrTruthy slack_token = false →
      optStrTruthy (env "SLACK_BOT_TOKEN") = true →
      login_slack_token slack_token env = .ok ((env "SLACK_BOT_TOKEN").getD "")) ∧
    (optStrTruthy slack_token = false →
      optStrTruthy (env "SLACK_BOT_TOKEN") = false →
      optStrTruthy (env "SLACK_USER_TOKEN") = true →
      login_slack_token slack_token env = .ok ((env "SLACK_USER_TOKEN").getD "")) ∧
    (optStrTruthy slack_token = false →
      optStrTruthy (env "SLACK_BOT_TOKEN") = false →
      optStrTruthy (env "SLACK_USER_TOKEN") = false →
      login_slack_token slack_token env = .error (.keyError
        "SLACK_BOT_TOKEN or SLACK_USER_TOKEN environment variable not set.")) := by
  refine ⟨fun h1 => ?_, fun h1 h2 => ?_, fun h1 h2 h3 => ?_, fun h1 h2 h3 => ?_⟩ <;>
    simp [login_slack_token, h1, *]

theorem claim_C8_witness :
    login_slack_token (some "tok") envEmpty = .ok "tok" ∧
    login_slack_token Option.none envBoth = .ok "xoxb-1" ∧
    login_slack_token Option.none envUserOnly = .ok "xoxp-2" ∧
    login_slack_token Option.none envEmpty = .error (.keyError
      "SLACK_BOT_TOKEN or SLACK_USER_TOKEN environment variable not set.") :=
  ⟨(claim_C8_token_resolution (some "tok") envEmpty).1 rfl,
   (claim_C8_token_resolution Option.none envBoth).2.1 rfl rfl,
   (claim_C8_token_resolution Option.none envUserOnly).2.2.1 rfl rfl rfl,
   (claim_C8_token_resolution Option.none envEmpty).2.2.2 rfl rfl rfl⟩


/-- Claim C5 counterexample: supplying `emoji` with the styled kind
`mrkdwn` does NOT fail with a validation error — `make_text_object` returns
successfully and silently drops the flag from the result. -/
theorem claim_C5_counterexample :
    make_text_object "mrkdwn" "hello" (some true) Option.none
      = .ok [("type", JValue.s "mrkdwn"), ("text", JValue.s "hello")] := rfl

/-- Claim C5 (amended): `make_text_object` includes the `emoji` flag in its
result only when the kind is `plain_text` and the `verbatim` flag only when
the kind is `mrkdwn`; supplying `emoji` with a styled kind, or `verbatim`
with a plain kind, raises no error — the flag is silently omitted from the
returned object. -/
theorem claim_C5_amended (t : String) (e v : Bool)
    (h1 : 1 ≤ t.length) (h2 : t.length ≤ 3000) :
    make_text_object "mrkdwn" t (some e) (some v)
      = .ok [("type", JValue.s "mrkdwn"), ("text", JValue.s t), ("verbatim", JValue.b v)] ∧
    make_text_object "plain_text" t (some e) (some v)
      = .ok [("type", JValue.s "plain_text"), ("text", JValue.s t), ("emoji", JValue.b e)] := by
  constructor <;> simp [make_text_object, h1, h2]

theorem claim_C5_witness :
    make_text_object "mrkdwn" "hi" (some true) (some false)
      = .ok [("type", JValue.s "mrkdwn"), ("text", JValue.s "hi"), ("verbatim", JValue.b false)] ∧
    make_text_object "plain_text" "hi" (some true) (some false)
      = .ok [("type", JValue.s "plain_text"), ("text", JValue.s "hi"), ("emoji", JValue.b true)] :=
  claim_C5_amended "hi" true false (by decide) (by decide)

/-- Claim C6 counterexample: `make_button` accepts a text object whose
content has length 0, outside `[1, 3000]` — so it is not the case that every
builder accepting a text-object argument rejects content whose length lies
outside `[1, 3000]`. -/
theorem claim_C6_counterexample :
    make_button (JValue.obj [("type", JValue.s "plain_text"), ("text", JValue.s "")])
      Option.none Option.none Option.none Option.none Option.none Option.none
      = .ok [("type", JValue.s "button"),
             ("text", JValue.obj [("type", JValue.s "plain_text"), ("text", JValue.s "")])] := rfl

/-- Claim C6 (amended): `make_text_object` raises a validation error
whenever `len(text) < 1` or `len(text) > 3000`; the builders accepting a
prebuilt text object enforce only their per-field upper bounds — e.g.
`make_button` rejects label content longer than 75 characters but accepts
empty content. -/
theorem claim_C6_amended :
    (∀ (text_type text : String) (emoji verbatim : Option Bool),
      (text_type = "plain_text" ∨ text_type = "mrkdwn") →
      (text.length < 1 ∨ text.length > 3000) →
      make_text_object text_type text emoji verbatim
        = .error (.valueError "The text length must be between 1 and 3000 characters.")) ∧
    (∀ (d : Dict) (u : String) action_id value style url confirm accessibility_label,
      dGet d "type" = some (JValue.s "plain_text") →
      dGet d "text" = some (JValue.s u) →
      u.length > 75 →
      make_button (JValue.obj d) action_id value style url confirm accessibility_label
        = .error (.valueError "Button text cannot exceed 75 characters.")) ∧
    (∀ (d : Dict) (u : String),
      dGet d "type" = some (JValue.s "plain_text") →
      dGet d "text" = some (JValue.s u) →
      u.length ≤ 75 →
      make_button (JValue.obj d) Option.none Option.none Option.none Option.none
          Option.none Option.none
        = .ok [("type", JValue.s "button"), ("text", JValue.obj d)]) := by
  refine ⟨?_, ?_, ?_⟩
  · intro tt t e v htt hlen
    have hb : ¬ (1 ≤ t.length ∧ t.length ≤ 3000) := by omega
    rcases htt with rfl | rfl <;> simp [make_text_object, hb]
  · intro d u aid v st url cf al h1 h2 h3
    simp [make_button, pyGet, h1, h2, jeqS, pyLen, h3]
  · intro d u h1 h2 h3
    have hn : ¬ (u.length > 75) := by omega
    simp [make_button, pyGet, h1, h2, jeqS, pyLen, hn, checkOptLen, checkStyle, pseq,
      optEntryStr]

theorem claim_C6_witness :
    make_text_object "plain_text" "" Option.none Option.none
      = .error (.valueError "The text length must be between 1 and 3000 characters.") ∧
    make_button (JValue.obj [("type", JValue.s "plain_text"),
        ("text", JValue.s (String.mk (List.replicate 76 'a')))])
      Option.none Option.none Option.none Option.none Option.none Option.none
      = .error (.valueError "Button text cannot exceed 75 characters.") :=
  ⟨claim_C6_amended.1 "plain_text" "" Option.none Option.none (Or.inl rfl)
      (Or.inl (by decide)),
   claim_C6_amended.2.1 _ (String.mk (List.replicate 76 'a')) Option.none Option.none
      Option.none Option.none Option.none Option.none rfl rfl (by decide)⟩

/-- Claim C4 counterexample: a call of `make_select_menu` in which both the
`options` argument and the `option_groups` argument are provided (as empty
lists) is NOT rejected — the truthiness test `if options and option_groups`
passes empty lists through, and both keys appear in the result. -/
theorem claim_C4_counterexample :
    make_select_menu Option.none (some []) (some []) Option.none Option.none false Option.none
      = .ok [("type", JValue.s "static_select"), ("options", JValue.arr []),
             ("option_groups", JValue.arr []), ("focus_on_load", JValue.b false)] := rfl

/-- Claim C4 (amended): `make_select_menu` rejects a call with a
`ValueError` exactly when both `options` and `option_groups` are provided
AND non-empty (Python truthiness); a call providing at most one of them —
here with the remaining arguments at their defaults and the list within the
100-item cap — is not rejected. -/
theorem claim_C4_amended :
    (∀ (action_id : Option String) (options option_groups : List JValue)
        (initial_option confirm : Option JValue) (focus_on_load : Bool)
        (placeholder : Option JValue),
      options ≠ [] → option_groups ≠ [] →
      make_select_menu action_id (some options) (some option_groups) initial_option
          confirm focus_on_load placeholder
        = .error (.valueError
            "You must provide either 'options' or 'option_groups', not both.")) ∧
    (∀ options : List JValue, options.length ≤ 100 →
      make_select_menu Option.none (some options) Option.none Option.none Option.none
          false Option.none
        = .ok [("type", JValue.s "static_select"), ("options", JValue.arr options),
               ("focus_on_load", JValue.b false)]) ∧
    (∀ option_groups : List JValue, option_groups.length ≤ 100 →
      make_select_menu Option.none Option.none (some option_groups) Option.none Option.none
          false Option.none
        = .ok [("type", JValue.s "static_select"), ("option_groups", JValue.arr option_groups),
               ("focus_on_load", JValue.b false)]) ∧
    make_select_menu Option.none Option.none Option.none Option.none Option.none
        false Option.none
      = .ok [("type", JValue.s "static_select"), ("focus_on_load", JValue.b false)] := by
  refine ⟨?_, ?_, ?_, rfl⟩
  · intro aid opts ogs io cf fol ph h1 h2
    have e1 : optListTruthy (some opts) = true := by
      cases opts with
      | nil => exact absurd rfl h1
      | cons a l => rfl
    have e2 : optListTruthy (some ogs) = true := by
      cases ogs with
      | nil => exact absurd rfl h2
      | cons a l => rfl
    simp [make_select_menu, e1, e2]
  · intro opts h
    have e3 : decide (opts.length > 100) = false := decide_eq_false (by omega)
    simp [make_select_menu, optListTruthy, optStrTruthy, e3, checkInitialOption, pseq, optEntryStr]
  · intro ogs h
    have e3 : decide (ogs.length > 100) = false := decide_eq_false (by omega)
    simp [make_select_menu, optListTruthy, optStrTruthy, e3, checkInitialOption, pseq, optEntryStr]

theorem claim_C4_witness :
    make_select_menu Option.none (some [JValue.obj [("text", JValue.obj
        [("type", JValue.s "plain_text"), ("text", JValue.s "Option 1")]),
        ("value", JValue.s "value1")]])
      (some [JValue.obj [("label", JValue.s "g")]]) Option.none Option.none false Option.none
      = .error (.valueError
          "You must provide either 'options' or 'option_groups', not both.") ∧
    make_select_menu Option.none Option.none Option.none Option.none Option.none
        false Option.none
      = .ok [("type", JValue.s "static_select"), ("focus_on_load", JValue.b false)] :=
  ⟨claim_C4_amended.1 Option.none _ _ Option.none Option.none false Option.none
      (by simp) (by simp),
   claim_C4_amended.2.2.2⟩

/-- Claim C2 (confirmed): on every successful invocation,
`create_slack_channel` first calls the vendor's `conversations_create`, then
immediately calls `conversations_archive` on the channel id taken from the
creation response, and returns the stringified response of the ARCHIVE call,
not of the creation call. -/
theorem claim_C2_create_then_archive (client : SlackClient) (name : String)
    (is_private : Bool) (r ch channel_id a : JValue)
    (h1 : client (.conversations_create name is_private) = .ok r)
    (h2 : pyIndex r "channel" = .ok ch)
    (h3 : pyIndex ch "id" = .ok channel_id)
    (h4 : client (.conversations_archive channel_id) = .ok a) :
    create_slack_channel client name is_private
      = (.ok (pyStrOf a),
         [.conversations_create name is_private, .conversations_archive channel_id]) := by
  simp [create_slack_channel, h1, h2, h3, h4]

theorem claim_C2_witness :
    create_slack_channel exampleClient "test_channel" true
      = (.ok (pyStrOf (.obj [("fake_response_key", .s "fake_response_value")])),
         [.conversations_create "test_channel" true,
          .conversations_archive (.s "fake_channel_id")]) :=
  claim_C2_create_then_archive exampleClient "test_channel" true
    (.obj [("channel", .obj [("id", .s "fake_channel_id")])])
    (.obj [("id", .s "fake_channel_id")]) (.s "fake_channel_id")
    (.obj [("fake_response_key", .s "fake_response_value")]) rfl rfl rfl rfl

/-- Claim C1 counterexample: `create_slack_channel` performs TWO vendor
API calls (`conversations_create` then `conversations_archive`), not a
single one, and the string it returns is the stringified archive payload,
not the creation payload. -/
theorem claim_C1_counterexample :
    create_slack_channel exampleClient "test_channel" true
      = (.ok "\x7b'fake_response_key': 'fake_response_value'\x7d",
         [.conversations_create "test_channel" true,
          .conversations_archive (.s "fake_channel_id")])
    ∧ (create_slack_channel exampleClient "test_channel" true).2.length = 2 :=
  ⟨rfl, rfl⟩

/-- Claim C1 (amended): every operation method except
`create_slack_channel` delegates to exactly one vendor SDK call per
invocation; `create_slack_channel` performs two — `conversations_create`
followed by `conversations_archive` on the id from the creation
response. -/
theorem claim_C1_amended :
    (∀ client channel_id, (join_slack_channel client channel_id).2
        = [VendorCall.conversations_join channel_id]) ∧
    (∀ client channel_id, (leave_slack_channel client channel_id).2
        = [VendorCall.conversations_leave channel_id]) ∧
    (∀ client, (get_slack_channel_information client).2 = [VendorCall.conversations_list]) ∧
    (∀ client channel_id, (get_slack_channel_message client channel_id).2
        = [VendorCall.conversations_history channel_id]) ∧
    (∀ client message channel_id file_path user blocks,
      (send_slack_message client message channel_id file_path user blocks).2.length = 1) ∧
    (∀ client time_stamp channel_id, (delete_slack_message client time_stamp channel_id).2
        = [VendorCall.chat_delete channel_id time_stamp]) ∧
    (∀ client name is_private r ch channel_id,
      client (.conversations_create name is_private) = .ok r →
      pyIndex r "channel" = .ok ch →
      pyIndex ch "id" = .ok channel_id →
      (create_slack_channel client name is_private).2
        = [.conversations_create name is_private, .conversations_archive channel_id]) := by
  refine ⟨?_, ?_, ?_, ?_, ?_, ?_, ?_⟩
  · intro client cid
    cases h : client (VendorCall.conversations_join cid) <;> simp [join_slack_channel, h]
  · intro client cid
    cases h : client (VendorCall.conversations_leave cid) <;> simp [leave_slack_channel, h]
  · intro client
    cases h : client VendorCall.conversations_list with
    | error e => simp [get_slack_channel_information, h]
    | ok r =>
      cases h2 : pyIndex r "channels" with
      | error ex => simp [get_slack_channel_information, h, h2]
      | ok v =>
        cases v <;> simp [get_slack_channel_information, h, h2]
        split <;> rfl
  · intro client cid
    cases h : client (VendorCall.conversations_history cid) with
    | error e => simp [get_slack_channel_message, h]
    | ok r =>
      cases h2 : pyIndex r "messages" with
      | error ex => simp [get_slack_channel_message, h, h2]
      | ok v =>
        cases v <;> simp [get_slack_channel_message, h, h2]
        split <;> rfl
  · intro client msg cid fp u bl
    cases hfp : optStrTruthy fp with
    | true =>
      cases h : client (VendorCall.files_upload_v2 cid (fp.getD "") msg) <;>
        simp [send_slack_message, hfp, h]
    | false =>
      cases hu : optStrTruthy u with
      | true =>
        cases h : client (VendorCall.chat_postEphemeral cid msg (u.getD "") bl) <;>
          simp [send_slack_message, hfp, hu, h]
      | false =>
        cases h : client (VendorCall.chat_postMessage cid msg bl) <;>
          simp [send_slack_message, hfp, hu, h]
  · intro client ts cid
    cases h : client (VendorCall.chat_delete cid ts) <;> simp [delete_slack_message, h]
  · intro client name priv r ch cid h1 h2 h3
    cases h4 : client (VendorCall.conversations_archive cid) <;>
      simp [create_slack_channel, h1, h2, h3, h4]

theorem claim_C1_witness :
    (join_slack_channel exampleClient "C1").2 = [VendorCall.conversations_join "C1"] ∧
    (create_slack_channel exampleClient "test_channel" true).2
      = [VendorCall.conversations_create "test_channel" true,
         VendorCall.conversations_archive (JValue.s "fake_channel_id")] :=
  ⟨claim_C1_amended.1 exampleClient "C1",
   claim_C1_amended.2.2.2.2.2.2 exampleClient "test_channel" true
     (.obj [("channel", .obj [("id", .s "fake_channel_id")])])
     (.obj [("id", .s "fake_channel_id")]) (.s "fake_channel_id") rfl rfl rfl⟩

/-- Claim C3 (confirmed): `send_slack_message` with `file_path=None` and
`user=None` issues exactly one `chat_postMessage` vendor call (a public
message) and, on vendor success, returns a string containing both the
original message text and the stringified vendor response. -/
theorem claim_C3_send_public_message (client : SlackClient) (message channel_id : String)
    (blocks : Option (List JValue)) (r : JValue)
    (h : client (.chat_postMessage channel_id message blocks) = .ok r) :
    send_slack_message client message channel_id Option.none Option.none blocks
      = (.ok ("Message: " ++ message ++ " sent successfully, got response: " ++ pyStrOf r),
         [.chat_postMessage channel_id message blocks]) ∧
    (∃ pre post, "Message: " ++ message ++ " sent successfully, got response: " ++ pyStrOf r
        = pre ++ message ++ post) ∧
    (∃ pre2 post2, "Message: " ++ message ++ " sent successfully, got response: " ++ pyStrOf r
        = pre2 ++ pyStrOf r ++ post2) := by
  refine ⟨?_,
    ⟨"Message: ", " sent successfully, got response: " ++ pyStrOf r, ?_⟩,
    ⟨"Message: " ++ message ++ " sent successfully, got response: ", "", ?_⟩⟩
  · simp [send_slack_message, optStrTruthy, h]
  · rw [String.append_assoc, String.append_assoc]
  · rw [String.append_empty]

theorem claim_C3_witness :
    send_slack_message exampleClient "test_message" "123" Option.none Option.none Option.none
      = (.ok ("Message: " ++ "test_message" ++ " sent successfully, got response: "
          ++ pyStrOf (.obj [])),
         [.chat_postMessage "123" "test_message" Option.none]) ∧
    (∃ pre post, "Message: " ++ "test_message" ++ " sent successfully, got response: "
        ++ pyStrOf (JValue.obj []) = pre ++ "test_message" ++ post) ∧
    (∃ pre2 post2, "Message: " ++ "test_message" ++ " sent successfully, got response: "
        ++ pyStrOf (JValue.obj []) = pre2 ++ pyStrOf (JValue.obj []) ++ post2) :=
  claim_C3_send_public_message exampleClient "test_message" "123" Option.none
    (.obj []) rfl

/-- Claim C7 (confirmed): every operation method, when the vendor SDK
raises its `SlackApiError`, catches it and returns the error string
`"Error ...: <vendor message>"` (`Error creating conversation:` for all
methods except `get_slack_channel_message`, which uses
`Error retrieving messages:`) instead of re-raising — the result is `.ok`,
so no vendor exception reaches the caller. -/
theorem claim_C7_vendor_errors_become_strings (client : SlackClient) (resp v : JValue)
    (hresp : pyIndex resp "error" = .ok v)
    (hc : ∀ call, client call = .error ⟨resp⟩)
    (name channel_id time_stamp message : String) (is_private : Bool)
    (file_path user : Option String) (blocks : Option (List JValue)) :
    (create_slack_channel client name is_private).1
      = .ok ("Error creating conversation: " ++ pyStrOf v) ∧
    (join_slack_channel client channel_id).1
      = .ok ("Error creating conversation: " ++ pyStrOf v) ∧
    (leave_slack_channel client channel_id).1
      = .ok ("Error creating conversation: " ++ pyStrOf v) ∧
    (get_slack_channel_information client).1
      = .ok ("Error creating conversation: " ++ pyStrOf v) ∧
    (get_slack_channel_message client channel_id).1
      = .ok ("Error retrieving messages: " ++ pyStrOf v) ∧
    (send_slack_message client message channel_id file_path user blocks).1
      = .ok ("Error creating conversation: " ++ pyStrOf v) ∧
    (delete_slack_message client time_stamp channel_id).1
      = .ok ("Error creating conversation: " ++ pyStrOf v) := by
  refine ⟨?_, ?_, ?_, ?_, ?_, ?_, ?_⟩
  · simp [create_slack_channel, hc, slackErrorString, hresp]
  · simp [join_slack_channel, hc, slackErrorString, hresp]
  · simp [leave_slack_channel, hc, slackErrorString, hresp]
  · simp [get_slack_channel_information, hc, slackErrorString, hresp]
  · simp [get_slack_channel_message, hc, slackErrorString, hresp]
  · cases hfp : optStrTruthy file_path with
    | true => simp [send_slack_message, hfp, hc, slackErrorString, hresp]
    | false =>
      cases hu : optStrTruthy user with
      | true => simp [send_slack_message, hfp, hu, hc, slackErrorString, hresp]
      | false => simp [send_slack_message, hfp, hu, hc, slackErrorString, hresp]
  · simp [delete_slack_message, hc, slackErrorString, hresp]

theorem claim_C7_witness :
    (create_slack_channel erroringClient "test_channel" true).1
      = .ok ("Error creating conversation: " ++ pyStrOf (JValue.s "channel_not_found")) ∧
    (join_slack_channel erroringClient "C1").1
      = .ok ("Error creating conversation: " ++ pyStrOf (JValue.s "channel_not_found")) ∧
    (leave_slack_channel erroringClient "C1").1
      = .ok ("Error creating conversation: " ++ pyStrOf (JValue.s "channel_not_found")) ∧
    (get_slack_channel_information erroringClient).1
      = .ok ("Error creating conversation: " ++ pyStrOf (JValue.s "channel_not_found")) ∧
    (get_slack_channel_message erroringClient "C1").1
      = .ok ("Error retrieving messages: " ++ pyStrOf (JValue.s "channel_not_found")) ∧
    (send_slack_message erroringClient "hello" "C1" Option.none Option.none Option.none).1
      = .ok ("Error creating conversation: " ++ pyStrOf (JValue.s "channel_not_found")) ∧
    (delete_slack_message erroringClient "123" "C1").1
      = .ok ("Error creating conversation: " ++ pyStrOf (JValue.s "channel_not_found")) :=
  claim_C7_vendor_errors_become_strings erroringClient
    (.obj [("error", .s "channel_not_found")]) (.s "channel_not_found") rfl
    (fun _ => rfl) "test_channel" "C1" "123" "hello" true Option.none Option.none Option.none

/-- Claim C10 (confirmed): on vendor success in which the filtering
comprehension runs without raising, the two retrieval methods return the
JSON dump of the filtered projection, every element of which carries
exactly the fixed key set (`id`/`name`/`created`/`num_members` for
channels, `user`/`text`/`ts` for messages); on a single dict entry the
filter keeps the entry, projected, exactly when it holds every required
key and silently omits it otherwise; a successful filter distributes over
concatenation, so retained entries keep their relative order.  A non-dict
entry such as the int `5` makes the comprehension raise `TypeError`
(Python's `'id' in 5`), which the `except SlackApiError` handler does not
catch — the last conjunct records that error path. -/
theorem claim_C10_retrieval_filtering (client : SlackClient) (channel_id : String)
    (r rm : JValue) (l lm out outm : List JValue)
    (h1 : client .conversations_list = .ok r)
    (h2 : pyIndex r "channels" = .ok (.arr l))
    (h3 : client (.conversations_history channel_id) = .ok rm)
    (h4 : pyIndex rm "messages" = .ok (.arr lm))
    (h5 : filterEntries l channelKeys = .ok out)
    (h6 : filterEntries lm messageKeys = .ok outm) :
    get_slack_channel_information client
      = (.ok (jsonDumps (.arr out)), [.conversations_list]) ∧
    get_slack_channel_message client channel_id
      = (.ok (jsonDumps (.arr outm)), [.conversations_history channel_id]) ∧
    (∀ v ∈ out, jKeys v = channelKeys) ∧
    (∀ v ∈ outm, jKeys v = messageKeys) ∧
    (∀ (d : Dict) (keys : List String),
      filterEntries [JValue.obj d] keys
        = .ok (if (keys.all (fun k => dHasKey d k)) = true
               then [JValue.obj (keys.filterMap (fun k => (dGet d k).map (fun v => (k, v))))]
               else [])) ∧
    (∀ (l1 l2 : List JValue) (keys : List String) (o1 o2 : List JValue),
      filterEntries l1 keys = .ok o1 → filterEntries l2 keys = .ok o2 →
      filterEntries (l1 ++ l2) keys = .ok (o1 ++ o2)) ∧
    filterEntries [JValue.i 5] channelKeys
      = .error (.typeError "argument of type 'int' is not iterable") := by
  refine ⟨?_, ?_, jKeys_of_mem_filterEntries l channelKeys out h5,
    jKeys_of_mem_filterEntries lm messageKeys outm h6,
    filterEntries_singleton_obj, filterEntries_append_ok, rfl⟩
  · simp [get_slack_channel_information, h1, h2, h5]
  · simp [get_slack_channel_message, h3, h4, h6]

theorem claim_C10_witness :
    get_slack_channel_information exampleClient
      = (.ok (jsonDumps (.arr
            [(.obj [("id", .s "123"), ("name", .s "test_channel"),
              ("created", .i 123), ("num_members", .i 5)])])),
         [.conversations_list]) ∧
    get_slack_channel_message exampleClient "123"
      = (.ok (jsonDumps (.arr
            [(.obj [("user", .s "user_id"), ("text", .s "test_message"),
              ("ts", .s "123")])])),
         [.conversations_history "123"]) :=
  ⟨(claim_C10_retrieval_filtering exampleClient "123" _ _ _ _ _ _
      rfl rfl rfl rfl rfl rfl).1,
   (claim_C10_retrieval_filtering exampleClient "123" _ _ _ _ _ _
      rfl rfl rfl rfl rfl rfl).2.1⟩

end SlackSpec
